import Mathlib

/-!
Shallow embedding of `tools/esp32_runner.py` (ESP32_STM32_programmer):
the port-resolution heuristic, boot-mode classification, recovery sweep,
command parsing and the per-command dispatch/capture loop, together with
proofs of the behavioural claims about them.

Python strings are modelled as Lean `String`; byte payloads written to
the serial port are modelled as the UTF-8 text they encode.  Wall-clock
times are modelled as rationals (`ℚ`).  Reads from the serial port are
modelled as a finite trace of `(time, data)` events, one per iteration of
the corresponding Python polling loop (an empty `data` models a read that
returned no bytes).
-/

namespace ESP32Runner

/-- Boolean infix test on lists: `needle` occurs contiguously in `haystack`. -/
def listInfix (needle : List Char) : List Char → Bool
  | [] => needle.isEmpty
  | c :: rest => needle.isPrefixOf (c :: rest) || listInfix needle rest

/-- Python's `needle in haystack` substring test. -/
def containsSub (haystack needle : String) : Bool :=
  listInfix needle.toList haystack.toList

/-- Python's `str.lower()` (the banner substrings involved are ASCII). -/
def pyLower (s : String) : String :=
  String.mk (s.toList.map Char.toLower)

/-- Python's `str.isdigit()` restricted to ASCII decimal digits (the
only digits the device protocol and the CLI examples use). -/
def pyIsdigit (s : String) : Bool :=
  !s.toList.isEmpty && s.toList.all Char.isDigit

/-- Python's `s.startswith(pre)`. -/
def pyStartsWith (s pre : String) : Bool :=
  pre.toList.isPrefixOf s.toList

/-- Python's `len(s)`. -/
def pyLen (s : String) : Nat :=
  s.toList.length

/-- Python's `s[n:]`. -/
def pyDrop (s : String) (n : Nat) : String :=
  String.mk (s.toList.drop n)

/-- Python's `s[:n]`. -/
def pyTake (s : String) (n : Nat) : String :=
  String.mk (s.toList.take n)

/-- Python's `s.strip()`: remove leading and trailing whitespace. -/
def pyStrip (s : String) : String :=
  String.mk (((s.toList.dropWhile Char.isWhitespace).reverse.dropWhile
    Char.isWhitespace).reverse)

/-- `_looks_like_rom_download` (esp32_runner.py:133-135): case-insensitive
match of the mask-ROM download banners. -/
def looksLikeRomDownload (s : String) : Bool :=
  let ss := pyLower s
  containsSub ss "esp-rom" || containsSub ss "waiting for download" ||
    containsSub ss "download(usb"

/-- `_looks_like_firmware` (esp32_runner.py:138-145): case-sensitive match
of the application-firmware banners. -/
def looksLikeFirmware (s : String) : Bool :=
  containsSub s "ESP32-S3 STM32G0 Programmer" ||
  containsSub s "Mounting SPIFFS" ||
  containsSub s "Filesystem status:" ||
  containsSub s "MODE 2"

/-- Whether `main` (esp32_runner.py:528) enters the recovery path for the
captured boot text: `_looks_like_rom_download(t) and not _looks_like_firmware(t)`. -/
def recoveryAttempted (bootText : String) : Bool :=
  looksLikeRomDownload bootText && !looksLikeFirmware bootText

/-- The spec's boot classification (§4.3).  Modelled from the spec: the
repository has no explicit `classify` function; `main` combines the two
predicates `_looks_like_firmware` / `_looks_like_rom_download` directly,
and the spec's classification is their decision tree. -/
inductive BootClassification where
  | FirmwareRunning
  | DownloadMode
  | Unknown
  deriving DecidableEq, Repr

/-- Modelled from the spec: `classify` of §4.3 expressed with the code's
two banner predicates (firmware evidence wins; download-mode only without
firmware evidence; otherwise unknown). -/
def classify (bootText : String) : BootClassification :=
  if looksLikeFirmware bootText then .FirmwareRunning
  else if looksLikeRomDownload bootText then .DownloadMode
  else .Unknown

/-! ### Port choice (`_pio_device_list` entry + `_choose_port`) -/

/-- One entry of the JSON list printed by `pio device list --json-output`:
`d.get(k)` returns `none` for a missing key. -/
structure PioDevice where
  port : Option String
  description : Option String
  hwid : Option String
  deriving DecidableEq, Repr

/-- Python truthiness of `d.get("port")`: present and non-empty. -/
def portTruthy (d : PioDevice) : Bool :=
  match d.port with
  | none => false
  | some p => !p.toList.isEmpty

/-- The USB heuristic of `_choose_port` (esp32_runner.py:70):
`"usb" in desc or "usb" in hwid or "cdc" in desc or "uart" in desc`
on the lower-cased description/hwid. -/
def usbHeuristic (d : PioDevice) : Bool :=
  let desc := pyLower (d.description.getD "")
  let hwid := pyLower (d.hwid.getD "")
  containsSub desc "usb" || containsSub hwid "usb" ||
    containsSub desc "cdc" || containsSub desc "uart"

/-- The `/dev/cu.` → `/dev/tty.` rewrite applied inside the heuristic
branch of `_choose_port` (esp32_runner.py:75-77). -/
def normalizePort (p : String) : String :=
  if pyStartsWith p "/dev/cu." then "/dev/tty." ++ pyDrop p 8 else p

/-- The first pass of `_choose_port`: first device with a truthy port that
matches the USB heuristic, with the macOS call-out → dial-in rewrite. -/
def choosePortHeuristic : List PioDevice → Option String
  | [] => none
  | d :: rest =>
    if portTruthy d && usbHeuristic d then
      some (normalizePort ((d.port).getD ""))
    else choosePortHeuristic rest

/-- `_choose_port` (esp32_runner.py:62-86): the heuristic pass, then the
exactly-one-device fallback (which returns the enumerated port verbatim),
then a `RuntimeError`. -/
def choosePort (devices : List PioDevice) : Except String String :=
  match choosePortHeuristic devices with
  | some p => .ok p
  | none =>
    match devices with
    | [d] =>
      if portTruthy d then .ok ((d.port).getD "")
      else .error "Could not automatically choose a serial port."
    | _ => .error "Could not automatically choose a serial port."

/-! ### Recovery sweep (`_try_reset_sequences`) -/

/-- The fixed `(dtr, rts, pulse_reset)` table of `_try_reset_sequences`
(esp32_runner.py:151-157). -/
def resetSequences : List (Bool × Bool × Bool) :=
  [(false, false, true), (true, false, true), (false, true, true), (true, true, true)]

/-- One run of the `for` loop of `_try_reset_sequences` over a suffix of the
table, starting at combination index `k`.  `captures k` is the text drained
after the `k`-th combination is applied (the `_drain_capture` result); the
function returns the list of `(dtr, rts)` combinations actually applied, in
order: the loop returns as soon as a capture satisfies
`_looks_like_firmware` (esp32_runner.py:185-186). -/
def resetSweepFrom (captures : Nat → String) :
    List (Bool × Bool × Bool) → Nat → List (Bool × Bool)
  | [], _ => []
  | (dtr, rts, _pulse) :: rest, k =>
    (dtr, rts) ::
      (if looksLikeFirmware (captures k) then []
       else resetSweepFrom captures rest (k + 1))

/-- `_try_reset_sequences` (esp32_runner.py:148-186) as the sequence of
control-line combinations it applies, given the per-attempt captured boot
text.  (The best-effort `try/except` escapes around line toggling are not
modelled: the claims concern the firmware-banner early exit.) -/
def tryResetSequences (captures : Nat → String) : List (Bool × Bool) :=
  resetSweepFrom captures resetSequences 0

/-! ### Command dispatch (`main` loop + `_send_cmd_and_capture` send) -/

/-- The wire payload built by `_send_cmd_and_capture`
(esp32_runner.py:192): `cmd_char + "\n"`, UTF-8 encoded. -/
def payload (cmdChar : String) : String := cmdChar ++ "\n"

/-- The mode update of the `main` dispatch loop (esp32_runner.py:537-540):
`"1"` and `"2"` set the mode, every other token leaves it. -/
def modeAfter (mode : Nat) (c : String) : Nat :=
  if c = "1" then 1 else if c = "2" then 2 else mode

/-- The `main` dispatch loop (esp32_runner.py:533-541): update the mode for
`"1"`/`"2"`, then call `_send_cmd_and_capture` for EVERY token (there is no
`continue` after the mode update, so mode-switch tokens are also written to
the port).  Returns the final mode and the ordered list of payloads written. -/
def runDispatch (mode : Nat) : List String → Nat × List String
  | [] => (mode, [])
  | c :: cs =>
    let m := modeAfter mode c
    let r := runDispatch m cs
    (r.1, payload c :: r.2)

/-- `lead = cmd_char[0] if cmd_char else ""` (esp32_runner.py:204), as the
optional first character. -/
def leadOf (cmdChar : String) : Option Char :=
  cmdChar.toList.head?

/-- The stop-marker table of `_send_cmd_and_capture`
(esp32_runner.py:203-277), keyed by `(mode, lead)`. -/
def stopMarkers (mode : Nat) (cmdChar : String) : List String :=
  match leadOf cmdChar with
  | none => []
  | some lead =>
    if mode = 1 then
      if lead = 'e' then ["Erase OK", "Erase FAIL"]
      else if lead = 'w' then ["Write OK", "Write FAIL"]
      else if lead = 'v' then ["Verify OK", "Verify FAIL"]
      else if lead = 's' then ["Consume serial OK:", "Consume serial FAIL"]
      else if lead = 'l' then ["--- END /serial_consumed.bin ---", "Log open FAIL"]
      else if lead = 'a' then ["WiFi mode:", "WiFi AP IP:", "WiFi AP enabled:"]
      else if lead = 'R' then ["Pulsing NRST LOW", "Prep OK", "Prep FAIL"]
      else if lead = 'S' then ["Set serial OK:", "Set serial FAIL", "Set serial:"]
      else if lead = ' ' then
        ["PRODUCTION sequence SUCCESS", "Production sequence aborted",
         "ERROR: Production sequence aborted"]
      else if lead = 'F' then ["Firmware file selection OK", "Firmware file selection FAIL"]
      else if lead = 'f' then ["Filesystem status:"]
      else if lead = 'i' then ["DP IDCODE:", "DP IDCODE read failed"]
      else if lead = 'u' then ["Upgrade OK", "Upgrade FAIL", "Servomotor upgrade OK"]
      else if lead = 'p' then ["Servomotor GET_PRODUCT_INFO response:", "ERROR: getProductInfo"]
      else []
    else
      if lead = 'p' then
        ["Servomotor GET_COMPREHENSIVE_POSITION response",
         "ERROR: getComprehensivePosition", "ERROR: DUT unique_id not known"]
      else if lead = 'P' then
        ["Servomotor GET_COMPREHENSIVE_POSITION response",
         "ERROR: getComprehensivePosition(ref)"]
      else if lead = 'i' then
        ["Servomotor GET_PRODUCT_INFO response:", "ERROR: getProductInfo",
         "ERROR: DUT unique_id not known"]
      else if lead = 'e' then
        ["[Motor] enableMosfets called.", "ERROR: enableMosfets",
         "ERROR: DUT unique_id not known"]
      else if lead = 'd' then
        ["[Motor] disableMosfets called.", "ERROR: disableMosfets",
         "ERROR: DUT unique_id not known"]
      else if lead = 't' then
        ["[Motor] trapezoidMove", "ERROR: trapezoidMove", "ERROR: DUT unique_id not known"]
      else if lead = 'R' then
        ["[Motor] systemReset called.", "ERROR: systemReset", "ERROR: DUT unique_id not known"]
      else if lead = 's' then
        ["Mode2 getStatus OK", "Mode2 getStatus FAIL", "ERROR: getStatus",
         "ERROR: DUT unique_id not known"]
      else if lead = 'v' then
        ["Mode2 getSupplyVoltage OK", "Mode2 getSupplyVoltage FAIL",
         "ERROR: getSupplyVoltage", "ERROR: DUT unique_id not known"]
      else if lead = 'c' then
        ["Mode2 getTemperature OK", "Mode2 getTemperature FAIL",
         "ERROR: getTemperature", "ERROR: DUT unique_id not known"]
      else if lead = 'D' then ["Detect devices:", "ERROR: detectDevices"]
      else []

/-- The `long_running` classification (esp32_runner.py:281):
`lead in {"e","w","v"," ","u"}` in mode 1, else
`lead in {"u","p","P","i","e","d","t","R","s","v","c","D"}`. -/
def longRunning (mode : Nat) (cmdChar : String) : Bool :=
  match leadOf cmdChar with
  | none => false
  | some lead =>
    if mode = 1 then
      lead = 'e' || lead = 'w' || lead = 'v' || lead = ' ' || lead = 'u'
    else
      lead = 'u' || lead = 'p' || lead = 'P' || lead = 'i' || lead = 'e' || lead = 'd' ||
        lead = 't' || lead = 'R' || lead = 's' || lead = 'v' || lead = 'c' || lead = 'D'

/-! ### The capture loop of `_send_cmd_and_capture` (esp32_runner.py:282-302) -/

/-- Python's `s[-n:]`: the last `n` elements. -/
def takeLast (n : Nat) (l : List Char) : List Char :=
  l.drop (l.length - n)

/-- `any(m in buf for m in stop_markers)` (esp32_runner.py:293). -/
def anyMarkerIn (markers : List String) (buf : List Char) : Bool :=
  markers.any fun m => listInfix m.toList buf

/-- Why the `while True` loop of `_send_cmd_and_capture` exited. -/
inductive ExitReason where
  | marker
  | maxElapsed
  | quietTimeout
  deriving DecidableEq, Repr

/-- The loop exit: at which event index, at what wall-clock time, and why. -/
structure LoopExit where
  step : Nat
  time : ℚ
  reason : ExitReason
  deriving DecidableEq, Repr

/-- One `buf` update of the capture loop (esp32_runner.py:291-292): the
trailing window is only maintained when bytes arrived and markers are
configured (`if data: ... if stop_markers: buf = (buf + s)[-8192:]`). -/
def bufStep (markers : List String) (buf : List Char) (data : String) : List Char :=
  if data ≠ "" ∧ markers ≠ [] then takeLast 8192 (buf ++ data.toList) else buf

/-- The `while True` read loop of `_send_cmd_and_capture`
(esp32_runner.py:283-302) over an event trace.  Each `(now, data)` event is
one iteration: `data` is what `ser.read(4096)` returned (decoded), `now` the
`time.time()` sampled in that iteration.  State: trailing marker buffer
`buf`, time of last received byte `lastRx`, iteration counter `k`.  Checks,
in source order: marker found in the updated trailing buffer (only when
bytes arrived), `now - start >= max_s`, then
`(not long_running) and (now - last_rx >= quiet_s)` with `last_rx` already
refreshed by this iteration's bytes.  Returns `none` when the trace ends
with the loop still running. -/
def captureLoop (markers : List String) (lr : Bool) (quietS maxS start : ℚ) :
    List (ℚ × String) → List Char → ℚ → Nat → Option LoopExit
  | [], _, _, _ => none
  | (now, data) :: rest, buf, lastRx, k =>
    if data ≠ "" ∧ anyMarkerIn markers (bufStep markers buf data) = true then
      some ⟨k, now, .marker⟩
    else if maxS ≤ now - start then some ⟨k, now, .maxElapsed⟩
    else if lr = false ∧ quietS ≤ now - (if data ≠ "" then now else lastRx) then
      some ⟨k, now, .quietTimeout⟩
    else
      captureLoop markers lr quietS maxS start rest (bufStep markers buf data)
        (if data ≠ "" then now else lastRx) (k + 1)

/-- The successive trailing-buffer states of the capture loop, one entry per
event (the buffer as it stands after that iteration's update). -/
def bufStates (markers : List String) : List (ℚ × String) → List Char → List (List Char)
  | [], _ => []
  | (_, data) :: rest, buf =>
    bufStep markers buf data :: bufStates markers rest (bufStep markers buf data)

/-- `_send_cmd_and_capture`'s read loop for command `cmdChar` in mode `mode`
(markers and long-running classification looked up as in the source), run
from the initial state: empty buffer, `last_rx = start`, step 0. -/
def sendCmdCapture (mode : Nat) (cmdChar : String) (quietS maxS start : ℚ)
    (events : List (ℚ × String)) : Option LoopExit :=
  captureLoop (stopMarkers mode cmdChar) (longRunning mode cmdChar)
    quietS maxS start events [] start 0

/-! ### Command-token parsing (`_parse_cmds`, esp32_runner.py:305-348)

The Python `while i < len(argv)` loops are embedded with an explicit fuel
argument that counts remaining iterations; since `i` strictly increases each
iteration, `fuel = argv.length` at `i = 0` is always sufficient, and the
lemmas carry the invariant `argv.length ≤ i + fuel`. -/

/-- Python's `repr` of a simple string, as used in the `ValueError`
message's `{n!r}` interpolation. -/
def reprQuote (s : String) : String :=
  String.mk (Char.ofNat 39 :: s.toList ++ [Char.ofNat 39])

/-- The `ValueError` raised by `_parse_cmds` (esp32_runner.py:326). -/
def setSerialError (n : String) : String :=
  "--set-serial expects a uint32 decimal string, got: " ++ reprQuote n

/-- The body of `_parse_cmds`'s scan (esp32_runner.py:311-346), from index
`i`.  Branches in source order: skip ignored indices; `--space` appends
`" "`; `--set-serial` with a following token validates it as digits (raising
`ValueError` otherwise) and appends `"S" + n`; a two-character single-dash
token appends its second character; a bare token appends itself when it is a
single character or `"S"` followed by digits; anything else is skipped. -/
def parseCmdsAux (argv : List String) (ignore : List Nat) :
    Nat → Nat → Except String (List String)
  | 0, _ => .ok []
  | fuel + 1, i =>
    if i < argv.length then
      if i ∈ ignore then parseCmdsAux argv ignore fuel (i + 1)
      else if argv.getD i "" = "--space" then
        (parseCmdsAux argv ignore fuel (i + 1)).map (" " :: ·)
      else if argv.getD i "" = "--set-serial" ∧ i + 1 < argv.length then
        if pyIsdigit (pyStrip (argv.getD (i + 1) "")) = false then
          .error (setSerialError (pyStrip (argv.getD (i + 1) "")))
        else
          (parseCmdsAux argv ignore fuel (i + 2)).map
            (("S" ++ pyStrip (argv.getD (i + 1) "")) :: ·)
      else if pyStartsWith (argv.getD i "") "-" = true ∧
          pyStartsWith (argv.getD i "") "--" = false ∧ pyLen (argv.getD i "") = 2 then
        (parseCmdsAux argv ignore fuel (i + 1)).map ((pyDrop (argv.getD i "") 1) :: ·)
      else if pyStartsWith (argv.getD i "") "-" = false ∧ argv.getD i "" ≠ "" ∧
          (pyLen (argv.getD i "") = 1 ∨
            (2 ≤ pyLen (argv.getD i "") ∧ pyTake (argv.getD i "") 1 = "S" ∧
              pyIsdigit (pyDrop (argv.getD i "") 1) = true)) then
        (parseCmdsAux argv ignore fuel (i + 1)).map ((argv.getD i "") :: ·)
      else parseCmdsAux argv ignore fuel (i + 1)
    else .ok []

/-- `_parse_cmds(argv, ignore_indices)`. -/
def parseCmds (argv : List String) (ignore : List Nat) : Except String (List String) :=
  parseCmdsAux argv ignore argv.length 0

/-- Provenance of one parsed command: `derivesAt argv j c` says the token at
argv index `j` is what one iteration of `_parse_cmds`'s scan turns into the
command `c` — via one of the four accepting token shapes of the scan
(`--space`, `--set-serial N`, `-x`, or a raw command token). -/
def derivesAt (argv : List String) (j : Nat) (c : String) : Prop :=
  j < argv.length ∧
    ((argv.getD j "" = "--space" ∧ c = " ") ∨
     (argv.getD j "" = "--set-serial" ∧ j + 1 < argv.length ∧
       c = "S" ++ pyStrip (argv.getD (j + 1) "")) ∨
     (pyStartsWith (argv.getD j "") "-" = true ∧
       pyStartsWith (argv.getD j "") "--" = false ∧ pyLen (argv.getD j "") = 2 ∧
       c = pyDrop (argv.getD j "") 1) ∨
     (pyStartsWith (argv.getD j "") "-" = false ∧ argv.getD j "" ≠ "" ∧
       c = argv.getD j ""))

/-- A command token matching none of `_parse_cmds`'s recognized shapes:
an unknown `--` flag (other than `--space`/`--set-serial`), a bare token of
two or more characters that is not `"S"` followed only by digits, or a
single-dash token of three or more characters. -/
def unrecognizedToken (t : String) : Prop :=
  (pyStartsWith t "--" = true ∧ t ≠ "--space" ∧ t ≠ "--set-serial") ∨
  (pyStartsWith t "-" = false ∧ 2 ≤ pyLen t ∧
    ¬(pyTake t 1 = "S" ∧ pyIsdigit (pyDrop t 1) = true)) ∨
  (pyStartsWith t "-" = true ∧ pyStartsWith t "--" = false ∧ 3 ≤ pyLen t)

instance (t : String) : Decidable (unrecognizedToken t) := by
  unfold unrecognizedToken
  infer_instance

/-- The value-taking options of `_parse_args`'s ignore scan
(esp32_runner.py:447). -/
def valueOpts : List String :=
  ["--port", "--baud", "--log", "--open-timeout", "--boot-wait", "--quiet", "--max",
   "--set-serial"]

/-- The second scan of `_parse_args` (esp32_runner.py:444-452): mark the
index right after each value-taking option so it is not re-parsed as a raw
command token; the scan itself steps over the value (`i += 2`). -/
def ignoreScan (argv : List String) : Nat → Nat → List Nat
  | 0, _ => []
  | fuel + 1, i =>
    if i < argv.length then
      if argv.getD i "" ∈ valueOpts then
        (if i + 1 < argv.length then [i + 1] else []) ++ ignoreScan argv fuel (i + 2)
      else ignoreScan argv fuel (i + 1)
    else []

/-- The ignore-index set `_parse_args` hands to `_parse_cmds`. -/
def ignoreOf (argv : List String) : List Nat :=
  ignoreScan argv argv.length 0

/-- The commands `_parse_args(argv)` extracts (esp32_runner.py:454). -/
def argsCmds (argv : List String) : Except String (List String) :=
  parseCmds argv (ignoreOf argv)

/-- The serial session of `main` (esp32_runner.py:491-543) projected onto
its command path: parse the command tokens (a `ValueError` aborts the run
before the serial port is opened, so nothing is ever written), then run the
dispatch loop from mode 1, yielding the ordered payload trace written to the
port.  (Build/upload subprocesses, port opening and boot-text drain carry no
command payloads and are not modelled.) -/
def mainSends (argv : List String) : Except String (List String) :=
  (argsCmds argv).map fun cs => (runDispatch 1 cs).2

/-! ## Helper lemmas -/

theorem toList_append (a b : String) : (a ++ b).toList = a.toList ++ b.toList := by
  cases a
  cases b
  rfl

theorem runDispatch_snd (mode : Nat) (cs : List String) :
    (runDispatch mode cs).2 = cs.map payload := by
  induction cs generalizing mode with
  | nil => rfl
  | cons c cs ih => simp [runDispatch, ih]

/-! ## C1 — mode-switch tokens -/

/-- C1, counterexample: the claim says the command list `["1", "i"]` with
mode initialized to 1 sends nothing for `"1"` and then exactly `"i\n"`, i.e.
the payload trace is `["i\n"]`.  In the code the `main` loop calls
`_send_cmd_and_capture` for every token, mode switches included, so the
trace is `["1\n", "i\n"]`. -/
theorem c1_mode_switch_counterexample :
    (runDispatch 1 ["1", "i"]).2 = ["1\n", "i\n"] ∧
      (runDispatch 1 ["1", "i"]).2 ≠ ["i\n"] :=
  ⟨rfl, by decide⟩

/-- C1, amended: dispatching a mode-switch token (`"1"` or `"2"`)
updates the session's mode field, but the token is still written to the
serial connection as a raw command payload like every other token; in
particular `["1", "i"]` from mode 1 sends `"1\n"` and then `"i\n"`. -/
theorem c1_mode_switch_amended :
    (∀ (mode : Nat) (cs : List String), (runDispatch mode cs).2 = cs.map payload) ∧
    (∀ (mode : Nat) (cs : List String),
      (runDispatch mode ("1" :: cs)).1 = (runDispatch 1 cs).1 ∧
      (runDispatch mode ("2" :: cs)).1 = (runDispatch 2 cs).1) ∧
    (runDispatch 1 ["1", "i"]).2 = ["1\n", "i\n"] :=
  ⟨runDispatch_snd, fun _ _ => ⟨rfl, rfl⟩, rfl⟩

/-! ## C5 — boot classification vs. recovery -/

/-- C5: a firmware-banner substring forces `FirmwareRunning` and
suppresses recovery even when a mask-ROM download banner is also present;
a download banner with no firmware banner classifies as `DownloadMode` and
triggers recovery. -/
theorem c5_boot_classification (s : String) :
    (looksLikeFirmware s = true →
      classify s = .FirmwareRunning ∧ recoveryAttempted s = false) ∧
    (looksLikeRomDownload s = true → looksLikeFirmware s = false →
      classify s = .DownloadMode ∧ recoveryAttempted s = true) := by
  constructor
  · intro h
    simp [classify, recoveryAttempted, h]
  · intro h1 h2
    simp [classify, recoveryAttempted, h1, h2]

/-- Witness for C5: `"ESP-ROM:esp32s3 MODE 2"` carries both a download
banner (`esp-rom`) and a firmware banner (`MODE 2`), and firmware wins;
`"waiting for download"` alone classifies as download mode with recovery. -/
theorem c5_boot_classification_witness :
    (classify "ESP-ROM:esp32s3 MODE 2" = .FirmwareRunning ∧
      recoveryAttempted "ESP-ROM:esp32s3 MODE 2" = false) ∧
    (classify "waiting for download" = .DownloadMode ∧
      recoveryAttempted "waiting for download" = true) :=
  ⟨(c5_boot_classification _).1 (by decide),
   (c5_boot_classification _).2 (by decide) (by decide)⟩

/-! ## C6 — `--set-serial` validation -/

/-- For any argument string, `--set-serial n` parses to the single command
`"S" ++ strip(n)` when the whitespace-stripped argument passes the digit
test, and to the `ValueError` otherwise: this is the exact validation
`_parse_cmds` performs (esp32_runner.py:323-329), with the closed branch
conditions of the scan reduced away and only the digit test left open. -/
theorem setSerial_parse (n : String) :
    argsCmds ["--set-serial", n]
      = if pyIsdigit (pyStrip n) = false then .error (setSerialError (pyStrip n))
        else .ok ["S" ++ pyStrip n] := rfl

/-- C6, counterexample: the claim says any `--set-serial` argument that is
not a non-negative decimal integer literal fails with
`InvalidCommandArgument` before anything is written to the port.  But the
code strips the argument before validating it (`str(argv[i + 1]).strip()`),
so the argument `" 12 "` — which is not a decimal integer literal (it
carries surrounding spaces, and its own digit test fails) — is accepted,
parses to the command `"S12"`, and the payload `"S12\n"` is written to the
port. -/
theorem c6_set_serial_counterexample :
    mainSends ["--set-serial", " 12 "] = .ok ["S12\n"] ∧
    pyIsdigit " 12 " = false :=
  ⟨rfl, by decide⟩

/-- C6, amended: the `--set-serial` argument is first stripped of
surrounding whitespace and the stripped form is then validated: if it
passes the digit test the parsed command is `"S" ++ strip(n)` and the
dispatched payload is exactly that command plus the line terminator (so
`--set-serial 1234` sends exactly `"S1234\n"`); if the stripped form fails
the digit test, parsing fails with the `ValueError`
(`InvalidCommandArgument`) inside `_parse_cmds` — which `main` runs before
opening the serial port, so nothing is ever written (e.g. `--set-serial
abc`).  (In the source the digit test is Python's `str.isdigit`, which also
accepts non-ASCII digit characters; this embedding models the ASCII decimal
case.) -/
theorem c6_set_serial_amended :
    (∀ n : String,
      (pyIsdigit (pyStrip n) = true →
        argsCmds ["--set-serial", n] = .ok ["S" ++ pyStrip n] ∧
        mainSends ["--set-serial", n] = .ok [payload ("S" ++ pyStrip n)]) ∧
      (pyIsdigit (pyStrip n) = false →
        mainSends ["--set-serial", n] = .error (setSerialError (pyStrip n)))) ∧
    argsCmds ["--set-serial", "1234"] = .ok ["S1234"] ∧
    mainSends ["--set-serial", "1234"] = .ok ["S1234\n"] ∧
    payload "S1234" = "S1234\n" ∧
    mainSends ["--set-serial", "abc"] = .error (setSerialError "abc") := by
  refine ⟨?_, rfl, rfl, rfl, rfl⟩
  intro n
  constructor
  · intro hdig
    have h : argsCmds ["--set-serial", n] = .ok ["S" ++ pyStrip n] := by
      rw [setSerial_parse n, hdig]
      simp
    refine ⟨h, ?_⟩
    rw [mainSends, h]
    rfl
  · intro hdig
    rw [mainSends, setSerial_parse n, if_pos hdig]
    rfl

/-- Witness for C6 amended: both validation branches exercised — the
stripped argument `" 12 "` is accepted as `"S12"`, and `"abc"` fails with
the `ValueError`. -/
theorem c6_set_serial_amended_witness :
    (argsCmds ["--set-serial", " 12 "] = .ok ["S" ++ pyStrip " 12 "] ∧
      mainSends ["--set-serial", " 12 "] = .ok [payload ("S" ++ pyStrip " 12 ")]) ∧
    mainSends ["--set-serial", "abc"] = .error (setSerialError (pyStrip "abc")) :=
  ⟨(c6_set_serial_amended.1 " 12 ").1 (by decide),
   (c6_set_serial_amended.1 "abc").2 (by decide)⟩

/-! ## C7 — call-out → dial-in port normalization -/

theorem pyStartsWith_tty_append (s : String) :
    pyStartsWith ("/dev/tty." ++ s) "/dev/cu." = false := by
  simp [pyStartsWith, toList_append, List.isPrefixOf]

theorem normalizePort_not_cu (p : String) :
    pyStartsWith (normalizePort p) "/dev/cu." = false := by
  rw [normalizePort]
  split
  · exact pyStartsWith_tty_append _
  · next h => simpa using h

/-- C7, counterexample: with a single enumerated device whose
description and hardware id carry none of the USB markers, the port is
chosen by the exactly-one-device fallback, which returns the enumerated
call-out path `/dev/cu.usbmodem1` verbatim instead of the dial-in
`/dev/tty.usbmodem1` the claim requires. -/
theorem c7_fallback_counterexample :
    choosePort [⟨some "/dev/cu.usbmodem1", none, none⟩] = .ok "/dev/cu.usbmodem1" ∧
    pyStartsWith "/dev/cu.usbmodem1" "/dev/cu." = true ∧
    "/dev/cu.usbmodem1" ≠ "/dev/tty.usbmodem1" :=
  ⟨rfl, by decide, by decide⟩

/-- C7, amended: the call-out → dial-in rewrite applies exactly on the
USB-heuristic selection path — a path returned by the heuristic pass never
carries the `/dev/cu.` prefix, and a heuristic-matching device with a
call-out port is rewritten to its dial-in equivalent — whereas the
exactly-one-device fallback returns the enumerated path verbatim, call-out
prefix included. -/
theorem c7_normalization_amended :
    (∀ (devices : List PioDevice) (p : String),
      choosePortHeuristic devices = some p → pyStartsWith p "/dev/cu." = false) ∧
    (∀ (d : PioDevice) (rest : List PioDevice) (p : String),
      d.port = some p → portTruthy d = true → usbHeuristic d = true →
      choosePortHeuristic (d :: rest) = some (normalizePort p)) ∧
    (∀ (d : PioDevice) (p : String),
      d.port = some p → p ≠ "" → usbHeuristic d = false →
      choosePort [d] = .ok p) := by
  refine ⟨?_, ?_, ?_⟩
  · intro devices
    induction devices with
    | nil => intro p h; simp [choosePortHeuristic] at h
    | cons d rest ih =>
      intro p h
      rw [choosePortHeuristic] at h
      split at h
      · obtain rfl : normalizePort ((d.port).getD "") = p := by
          simpa using h
        exact normalizePort_not_cu _
      · exact ih p h
  · intro d rest p hp htr hu
    rw [choosePortHeuristic, if_pos (by rw [htr, hu]; rfl), hp]
    rfl
  · intro d p hp hne hu
    have htr : portTruthy d = true := by
      rw [portTruthy, hp]
      obtain ⟨l⟩ := p
      cases l with
      | nil => exact absurd rfl hne
      | cons c l => rfl
    have hh : choosePortHeuristic [d] = none := by
      rw [choosePortHeuristic, if_neg (by rw [hu]; simp), choosePortHeuristic]
    simp [choosePort, hh, htr, hp]

/-- Witness for C7 amended, instantiating all three conjuncts at concrete
devices. -/
theorem c7_normalization_amended_witness :
    pyStartsWith "/dev/tty.x" "/dev/cu." = false ∧
    choosePortHeuristic [⟨some "/dev/cu.x", some "usb serial", none⟩]
      = some (normalizePort "/dev/cu.x") ∧
    choosePort [⟨some "/dev/cu.x", none, none⟩] = .ok "/dev/cu.x" :=
  ⟨c7_normalization_amended.1 [⟨some "/dev/tty.x", some "usb serial", none⟩] "/dev/tty.x" rfl,
   c7_normalization_amended.2.1 ⟨some "/dev/cu.x", some "usb serial", none⟩ [] "/dev/cu.x"
     rfl (by decide) (by decide),
   c7_normalization_amended.2.2 ⟨some "/dev/cu.x", none, none⟩ "/dev/cu.x" rfl (by decide)
     (by decide)⟩

/-! ## C8 — recovery sweep stops at the first firmware banner -/

/-- C8: during the four-combination recovery sweep, if the capture
after the `k`-th combination (0-based) is the first to satisfy the
firmware-banner predicate, the sequencer applies exactly the first `k + 1`
combinations and never the later ones. -/
theorem c8_recovery_early_exit (captures : Nat → String) (k : Nat)
    (hk : k < 4)
    (hbefore : ∀ j, j < k → looksLikeFirmware (captures j) = false)
    (hat : looksLikeFirmware (captures k) = true) :
    tryResetSequences captures
      = ((resetSequences.map fun s => (s.1, s.2.1)).take (k + 1)) := by
  interval_cases k
  · simp [tryResetSequences, resetSweepFrom, resetSequences, hat]
  · simp [tryResetSequences, resetSweepFrom, resetSequences, hat,
      hbefore 0 (by omega)]
  · simp [tryResetSequences, resetSweepFrom, resetSequences, hat,
      hbefore 0 (by omega), hbefore 1 (by omega)]
  · simp [tryResetSequences, resetSweepFrom, resetSequences, hat,
      hbefore 0 (by omega), hbefore 1 (by omega), hbefore 2 (by omega)]

/-- Witness for C8: a simulated device that first shows a firmware banner
after the third combination (index 2); the sweep applies exactly three
combinations and the fourth's line settings are never applied. -/
theorem c8_recovery_early_exit_witness :
    tryResetSequences (fun j => if j = 2 then "MODE 2" else "")
      = ((resetSequences.map fun s => (s.1, s.2.1)).take 3) :=
  c8_recovery_early_exit _ 2 (by omega)
    (fun j hj => by interval_cases j <;> decide) (by decide)

/-! ## Parse provenance: `_parse_cmds` is an order-preserving left-to-right scan -/

theorem except_map_cons_ok {e : Except String (List String)} {c : String} {cs : List String}
    (h : e.map (c :: ·) = .ok cs) :
    ∃ cs', e = .ok cs' ∧ cs = c :: cs' := by
  cases e with
  | error a => simp [Except.map] at h
  | ok l =>
    refine ⟨l, rfl, ?_⟩
    simpa [Except.map] using h.symm

theorem provenance_step {argv : List String} {ignore : List Nat} {i : Nat} {c : String}
    {cs' : List String} {idxs : List Nat} {i' : Nat} (hi' : i < i')
    (hig : i ∉ ignore) (hda : derivesAt argv i c)
    (hp : idxs.Pairwise (· < ·)) (hf : List.Forall₂ (derivesAt argv) idxs cs')
    (hb : ∀ j ∈ idxs, i' ≤ j ∧ j ∉ ignore) :
    (i :: idxs).Pairwise (· < ·) ∧
      List.Forall₂ (derivesAt argv) (i :: idxs) (c :: cs') ∧
      ∀ j ∈ i :: idxs, i ≤ j ∧ j ∉ ignore := by
  refine ⟨List.pairwise_cons.mpr ⟨fun j hj => lt_of_lt_of_le hi' (hb j hj).1, hp⟩,
    List.Forall₂.cons hda hf, ?_⟩
  intro j hj
  rcases List.mem_cons.mp hj with rfl | hj'
  · exact ⟨Nat.le_refl _, hig⟩
  · exact ⟨le_trans (Nat.le_of_lt hi') (hb j hj').1, (hb j hj').2⟩

/-- Every successful run of `_parse_cmds`'s scan from index `i` produces its
commands from a strictly increasing list of argv indices — one origin token
per command, in left-to-right order, never an ignored (option-value) index. -/
theorem parseCmds_provenance (argv : List String) (ignore : List Nat) :
    ∀ (fuel i : Nat) (cs : List String),
      parseCmdsAux argv ignore fuel i = .ok cs →
      ∃ idxs : List Nat,
        idxs.Pairwise (· < ·) ∧
        List.Forall₂ (derivesAt argv) idxs cs ∧
        ∀ j ∈ idxs, i ≤ j ∧ j ∉ ignore := by
  intro fuel
  induction fuel with
  | zero =>
    intro i cs h
    rw [parseCmdsAux] at h
    obtain rfl : cs = [] := by injection h with h'; exact h'.symm
    exact ⟨[], by simp, by simp, by simp⟩
  | succ fuel ih =>
    intro i cs h
    rw [parseCmdsAux] at h
    by_cases hlen : i < argv.length
    · rw [if_pos hlen] at h
      by_cases hig : i ∈ ignore
      · rw [if_pos hig] at h
        obtain ⟨idxs, hp, hf, hb⟩ := ih (i + 1) cs h
        exact ⟨idxs, hp, hf, fun j hj => ⟨Nat.le_of_succ_le (hb j hj).1, (hb j hj).2⟩⟩
      · rw [if_neg hig] at h
        by_cases hsp : argv.getD i "" = "--space"
        · rw [if_pos hsp] at h
          obtain ⟨cs', hrec, rfl⟩ := except_map_cons_ok h
          obtain ⟨idxs, hp, hf, hb⟩ := ih (i + 1) cs' hrec
          exact ⟨i :: idxs,
            provenance_step (Nat.lt_succ_self i) hig ⟨hlen, Or.inl ⟨hsp, rfl⟩⟩ hp hf hb⟩
        · rw [if_neg hsp] at h
          by_cases hss : argv.getD i "" = "--set-serial" ∧ i + 1 < argv.length
          · rw [if_pos hss] at h
            by_cases hdig : pyIsdigit (pyStrip (argv.getD (i + 1) "")) = false
            · rw [if_pos hdig] at h
              exact absurd h (by simp)
            · rw [if_neg hdig] at h
              obtain ⟨cs', hrec, rfl⟩ := except_map_cons_ok h
              obtain ⟨idxs, hp, hf, hb⟩ := ih (i + 2) cs' hrec
              exact ⟨i :: idxs,
                provenance_step (by omega) hig
                  ⟨hlen, Or.inr (Or.inl ⟨hss.1, hss.2, rfl⟩)⟩ hp hf hb⟩
          · rw [if_neg hss] at h
            by_cases hd2 : pyStartsWith (argv.getD i "") "-" = true ∧
                pyStartsWith (argv.getD i "") "--" = false ∧ pyLen (argv.getD i "") = 2
            · rw [if_pos hd2] at h
              obtain ⟨cs', hrec, rfl⟩ := except_map_cons_ok h
              obtain ⟨idxs, hp, hf, hb⟩ := ih (i + 1) cs' hrec
              exact ⟨i :: idxs,
                provenance_step (Nat.lt_succ_self i) hig
                  ⟨hlen, Or.inr (Or.inr (Or.inl ⟨hd2.1, hd2.2.1, hd2.2.2, rfl⟩))⟩ hp hf hb⟩
            · rw [if_neg hd2] at h
              by_cases hbare : pyStartsWith (argv.getD i "") "-" = false ∧
                  argv.getD i "" ≠ "" ∧
                  (pyLen (argv.getD i "") = 1 ∨
                    (2 ≤ pyLen (argv.getD i "") ∧ pyTake (argv.getD i "") 1 = "S" ∧
                      pyIsdigit (pyDrop (argv.getD i "") 1) = true))
              · rw [if_pos hbare] at h
                obtain ⟨cs', hrec, rfl⟩ := except_map_cons_ok h
                obtain ⟨idxs, hp, hf, hb⟩ := ih (i + 1) cs' hrec
                exact ⟨i :: idxs,
                  provenance_step (Nat.lt_succ_self i) hig
                    ⟨hlen, Or.inr (Or.inr (Or.inr ⟨hbare.1, hbare.2.1, rfl⟩))⟩ hp hf hb⟩
              · rw [if_neg hbare] at h
                obtain ⟨idxs, hp, hf, hb⟩ := ih (i + 1) cs h
                exact ⟨idxs, hp, hf,
                  fun j hj => ⟨Nat.le_of_succ_le (hb j hj).1, (hb j hj).2⟩⟩
    · rw [if_neg hlen] at h
      obtain rfl : cs = [] := by injection h with h'; exact h'.symm
      exact ⟨[], by simp, by simp, by simp⟩

/-! ## C4 — dispatch order equals input order -/

/-- C4: whenever the command tokens of `argv` parse successfully, the
dispatched payload sequence is exactly the parsed command sequence in
order — one payload per command, nothing dropped, duplicated or reordered —
and the parsed commands originate from a strictly increasing sequence of
argv token positions (left-to-right input order), mode-switch tokens and
repeated identical tokens included. -/
theorem c4_dispatch_order (argv : List String) (cs : List String) (mode : Nat)
    (h : argsCmds argv = .ok cs) :
    (runDispatch mode cs).2 = cs.map payload ∧
      ∃ idxs : List Nat, idxs.Pairwise (· < ·) ∧ List.Forall₂ (derivesAt argv) idxs cs := by
  refine ⟨runDispatch_snd mode cs, ?_⟩
  obtain ⟨idxs, hp, hf, _⟩ :=
    parseCmds_provenance argv (ignoreOf argv) argv.length 0 cs h
  exact ⟨idxs, hp, hf⟩

/-- Witness for C4 on `["2", "2", "i"]`: the repeated mode-switch token is
parsed twice and dispatched twice, in input order. -/
theorem c4_dispatch_order_witness :
    (runDispatch 1 ["2", "2", "i"]).2 = ["2", "2", "i"].map payload ∧
      ∃ idxs : List Nat, idxs.Pairwise (· < ·) ∧
        List.Forall₂ (derivesAt ["2", "2", "i"]) idxs ["2", "2", "i"] :=
  c4_dispatch_order ["2", "2", "i"] ["2", "2", "i"] 1 rfl

/-! ## C9 — option values are never parsed as commands -/

/-- C9: every parsed command originates at an argv index outside the
ignore set that `_parse_args` computes (the indices right after the
value-taking options `--port`, `--baud`, `--log`, `--open-timeout`,
`--boot-wait`, `--quiet`, `--max`, `--set-serial`); in particular
`["--boot-wait", "5", "i"]` marks index 1 as an option value and parses to
the single command `"i"` — the value token `"5"` is never dispatched. -/
theorem c9_option_values_not_commands :
    (∀ (argv : List String) (cs : List String), argsCmds argv = .ok cs →
      ∃ idxs : List Nat, List.Forall₂ (derivesAt argv) idxs cs ∧
        ∀ j ∈ idxs, j ∉ ignoreOf argv) ∧
    ignoreOf ["--boot-wait", "5", "i"] = [1] ∧
    argsCmds ["--boot-wait", "5", "i"] = .ok ["i"] := by
  refine ⟨?_, rfl, rfl⟩
  intro argv cs h
  obtain ⟨idxs, _, hf, hb⟩ :=
    parseCmds_provenance argv (ignoreOf argv) argv.length 0 cs h
  exact ⟨idxs, hf, fun j hj => (hb j hj).2⟩

/-- Witness for C9 at `["--boot-wait", "5", "i"]`. -/
theorem c9_option_values_not_commands_witness :
    ∃ idxs : List Nat,
      List.Forall₂ (derivesAt ["--boot-wait", "5", "i"]) idxs ["i"] ∧
        ∀ j ∈ idxs, j ∉ ignoreOf ["--boot-wait", "5", "i"] :=
  c9_option_values_not_commands.1 ["--boot-wait", "5", "i"] ["i"] rfl

/-! ## C10 — unrecognized tokens are silently skipped -/

theorem startsWith_dash_of_ddash (t : String) (h : pyStartsWith t "--" = true) :
    pyStartsWith t "-" = true := by
  rw [pyStartsWith] at h ⊢
  rw [show ("--" : String).toList = ['-', '-'] from rfl] at h
  rw [show ("-" : String).toList = ['-'] from rfl]
  cases hl : t.toList with
  | nil => rw [hl] at h; simp [List.isPrefixOf] at h
  | cons c l =>
    rw [hl] at h
    simp [List.isPrefixOf] at h ⊢
    exact h.1

/-- C10: a command token matching none of the recognized shapes —
an unknown `--` flag other than `--space`/`--set-serial`, a bare token of
length ≥ 2 not of the form `S<digits>`, or a single-dash token of length ≥ 3
— makes the `_parse_cmds` scan step to the next index producing no command
and raising no error; by contrast `--set-serial` with a non-digit argument
raises.  Concrete instances: `"Sabc"`, `"run"`, `"--unknown"`, `"-abc"`. -/
theorem c10_unrecognized_skipped :
    (∀ (argv : List String) (ignore : List Nat) (fuel i : Nat),
      i < argv.length → i ∉ ignore → unrecognizedToken (argv.getD i "") →
      parseCmdsAux argv ignore (fuel + 1) i = parseCmdsAux argv ignore fuel (i + 1)) ∧
    argsCmds ["Sabc"] = .ok [] ∧
    argsCmds ["run"] = .ok [] ∧
    argsCmds ["--unknown"] = .ok [] ∧
    argsCmds ["-abc"] = .ok [] ∧
    argsCmds ["Sabc", "i"] = .ok ["i"] ∧
    argsCmds ["--set-serial", "abc"] = .error (setSerialError "abc") := by
  refine ⟨?_, rfl, rfl, rfl, rfl, rfl, rfl⟩
  intro argv ignore fuel i hlen hig hunrec
  rw [parseCmdsAux, if_pos hlen, if_neg hig]
  have hsp : ¬(argv.getD i "" = "--space") := by
    intro hc
    rcases hunrec with hA | hB | hC
    · exact hA.2.1 hc
    · rw [hc] at hB
      exact Bool.noConfusion hB.1
    · rw [hc] at hC
      exact Bool.noConfusion hC.2.1
  have hss : ¬(argv.getD i "" = "--set-serial" ∧ i + 1 < argv.length) := by
    rintro ⟨hc, -⟩
    rcases hunrec with hA | hB | hC
    · exact hA.2.2 hc
    · rw [hc] at hB
      exact Bool.noConfusion hB.1
    · rw [hc] at hC
      exact Bool.noConfusion hC.2.1
  have hd2 : ¬(pyStartsWith (argv.getD i "") "-" = true ∧
      pyStartsWith (argv.getD i "") "--" = false ∧ pyLen (argv.getD i "") = 2) := by
    rintro ⟨h1, h2, h3⟩
    rcases hunrec with hA | hB | hC
    · rw [hA.1] at h2
      exact Bool.noConfusion h2
    · rw [hB.1] at h1
      exact Bool.noConfusion h1
    · omega
  have hbare : ¬(pyStartsWith (argv.getD i "") "-" = false ∧ argv.getD i "" ≠ "" ∧
      (pyLen (argv.getD i "") = 1 ∨
        (2 ≤ pyLen (argv.getD i "") ∧ pyTake (argv.getD i "") 1 = "S" ∧
          pyIsdigit (pyDrop (argv.getD i "") 1) = true))) := by
    rintro ⟨h1, h2, h3⟩
    rcases hunrec with hA | hB | hC
    · rw [startsWith_dash_of_ddash _ hA.1] at h1
      exact Bool.noConfusion h1
    · rcases h3 with h3 | h3
      · omega
      · exact hB.2.2 ⟨h3.2.1, h3.2.2⟩
    · rw [hC.1] at h1
      exact Bool.noConfusion h1
  rw [if_neg hsp, if_neg hss, if_neg hd2, if_neg hbare]

/-- Witness for C10: skipping the unrecognized token `"run"` at index 0 of
`["run", "i"]`. -/
theorem c10_unrecognized_skipped_witness :
    parseCmdsAux ["run", "i"] [] (1 + 1) 0 = parseCmdsAux ["run", "i"] [] 1 (0 + 1) :=
  c10_unrecognized_skipped.1 ["run", "i"] [] 1 0 (by decide) (by decide) (by decide)

/-! ## C2 — a marker hit terminates dispatch before `max_s` -/

/-- If the `k`-th read event delivers bytes, the trailing buffer computed at
that event contains a configured marker, that event's timestamp is below the
`max_s` deadline, and no event up to `k` is timestamped later than it, then
the capture loop exits — at some event no later than `k` — strictly before
`max_s` has elapsed. -/
theorem captureLoop_marker_terminates (markers : List String) (lr : Bool)
    (quietS maxS start : ℚ) :
    ∀ (events : List (ℚ × String)) (buf : List Char) (lastRx : ℚ) (k0 k : Nat)
      (tk : ℚ) (dk : String) (bk : List Char),
      (∀ (i : Nat) (t : ℚ) (d : String), i ≤ k → events.get? i = some (t, d) → t ≤ tk) →
      events.get? k = some (tk, dk) →
      dk ≠ "" →
      (bufStates markers events buf).get? k = some bk →
      anyMarkerIn markers bk = true →
      tk - start < maxS →
      ∃ e : LoopExit,
        captureLoop markers lr quietS maxS start events buf lastRx k0 = some e ∧
          e.time - start < maxS := by
  intro events
  induction events with
  | nil =>
    intro buf lastRx k0 k tk dk bk _ hev _ _ _ _
    simp at hev
  | cons ev rest ih =>
    obtain ⟨now, data⟩ := ev
    intro buf lastRx k0 k tk dk bk htimes hev hdk hbuf hmark htk
    have hnow : now ≤ tk := htimes 0 now data (Nat.zero_le k) rfl
    by_cases h1 : data ≠ "" ∧ anyMarkerIn markers (bufStep markers buf data) = true
    · refine ⟨⟨k0, now, .marker⟩, ?_, ?_⟩
      · rw [captureLoop, if_pos h1]
      · show now - start < maxS
        linarith
    · have h2 : ¬(maxS ≤ now - start) := by
        intro h2
        have : now - start < maxS := by linarith
        linarith
      by_cases h3 : lr = false ∧ quietS ≤ now - (if data ≠ "" then now else lastRx)
      · refine ⟨⟨k0, now, .quietTimeout⟩, ?_, ?_⟩
        · rw [captureLoop, if_neg h1, if_neg h2, if_pos h3]
        · show now - start < maxS
          linarith
      · cases k with
        | zero =>
          have hev0 : now = tk ∧ data = dk := by simpa using hev
          have hbuf0 : bufStep markers buf data = bk := by
            rw [bufStates] at hbuf
            simpa using hbuf
          refine absurd ⟨?_, ?_⟩ h1
          · rw [hev0.2]
            exact hdk
          · rw [hbuf0]
            exact hmark
        | succ k' =>
          rw [captureLoop, if_neg h1, if_neg h2, if_neg h3]
          refine ih (bufStep markers buf data) (if data ≠ "" then now else lastRx)
            (k0 + 1) k' tk dk bk ?_ hev hdk ?_ hmark htk
          · intro i t d hi hget
            exact htimes (i + 1) t d (Nat.succ_le_succ hi) hget
          · rw [bufStates] at hbuf
            simpa using hbuf

/-- C2: for every `(mode, command)` pair and every time-ordered read
stream in which one of the command's configured completion markers appears
in the trailing 8 KiB buffer at an event before the `max_s` deadline, the
dispatch loop of `_send_cmd_and_capture` terminates strictly before `max_s`
has elapsed since the command was sent — regardless of how little silence
has accumulated relative to `quiet_s`. -/
theorem c2_marker_terminates_before_max (mode : Nat) (cmdChar : String)
    (quietS maxS start : ℚ) (events : List (ℚ × String)) (k : Nat)
    (tk : ℚ) (dk : String) (bk : List Char)
    (htimes : ∀ (i : Nat) (t : ℚ) (d : String), i ≤ k →
      events.get? i = some (t, d) → t ≤ tk)
    (hev : events.get? k = some (tk, dk))
    (hdk : dk ≠ "")
    (hbuf : (bufStates (stopMarkers mode cmdChar) events []).get? k = some bk)
    (hmark : anyMarkerIn (stopMarkers mode cmdChar) bk = true)
    (htk : tk - start < maxS) :
    ∃ e : LoopExit,
      sendCmdCapture mode cmdChar quietS maxS start events = some e ∧
        e.time - start < maxS :=
  captureLoop_marker_terminates (stopMarkers mode cmdChar) (longRunning mode cmdChar)
    quietS maxS start events [] start 0 k tk dk bk htimes hev hdk hbuf hmark htk

/-- Witness for C2: command `"i"` in mode 1; the first read already
contains `"DP IDCODE:"` at time 1 with `max_s = 6`, and the loop exits
before the deadline. -/
theorem c2_marker_terminates_before_max_witness :
    ∃ e : LoopExit,
      sendCmdCapture 1 "i" 1 6 0 [(1, "DP IDCODE: 0x2ba01477")] = some e ∧
        e.time - 0 < 6 :=
  c2_marker_terminates_before_max 1 "i" 1 6 0 [(1, "DP IDCODE: 0x2ba01477")] 0 1
    "DP IDCODE: 0x2ba01477" ("DP IDCODE: 0x2ba01477".toList)
    (fun i t d hi hget => by
      obtain rfl : i = 0 := Nat.le_zero.mp hi
      have h : (1 : ℚ) = t ∧ "DP IDCODE: 0x2ba01477" = d := by simpa using hget
      exact le_of_eq h.1.symm)
    rfl (by decide) (by decide) (by decide) (by norm_num)

/-! ## C3 — `long_running` commands without markers run to the `max_s` ceiling -/

/-- With `long_running = true` and no configured marker ever appearing in
the trailing buffer, the capture loop neither exits on markers nor on quiet
periods: it exits exactly at the first event whose timestamp reaches the
`max_s` deadline, with the hard-ceiling exit reason. -/
theorem captureLoop_long_running_to_max (markers : List String)
    (quietS maxS start : ℚ) :
    ∀ (events : List (ℚ × String)) (buf : List Char) (lastRx : ℚ) (k0 j : Nat)
      (tj : ℚ) (dj : String),
      events.get? j = some (tj, dj) →
      maxS ≤ tj - start →
      (∀ e ∈ events.take j, e.1 - start < maxS) →
      (∀ b ∈ bufStates markers events buf, anyMarkerIn markers b = false) →
      captureLoop markers true quietS maxS start events buf lastRx k0
        = some ⟨k0 + j, tj, .maxElapsed⟩ := by
  intro events
  induction events with
  | nil =>
    intro buf lastRx k0 j tj dj hev
    simp at hev
  | cons ev rest ih =>
    obtain ⟨now, data⟩ := ev
    intro buf lastRx k0 j tj dj hev hmax htake hnomark
    have hm0 : anyMarkerIn markers (bufStep markers buf data) = false := by
      refine hnomark _ ?_
      rw [bufStates]
      exact List.mem_cons_self _ _
    have h1 : ¬(data ≠ "" ∧ anyMarkerIn markers (bufStep markers buf data) = true) := by
      rintro ⟨-, hc⟩
      rw [hm0] at hc
      exact Bool.noConfusion hc
    have hrest : ∀ b ∈ bufStates markers rest (bufStep markers buf data),
        anyMarkerIn markers b = false := by
      intro b hb
      refine hnomark b ?_
      rw [bufStates]
      exact List.mem_cons_of_mem _ hb
    cases j with
    | zero =>
      have hev0 : now = tj ∧ data = dj := by simpa using hev
      rw [captureLoop, if_neg h1, if_pos (by rw [hev0.1]; exact hmax), hev0.1]
      rfl
    | succ j' =>
      have hlt : now - start < maxS := htake (now, data) (by simp)
      rw [captureLoop, if_neg h1, if_neg (not_le.mpr hlt),
        if_neg (fun hc => Bool.noConfusion hc.1)]
      have hrec := ih (bufStep markers buf data) (if data ≠ "" then now else lastRx)
        (k0 + 1) j' tj dj (by simpa using hev) hmax
        (fun e he => htake e (by simpa using List.mem_cons_of_mem _ he)) hrest
      rw [hrec]
      have harith : k0 + 1 + j' = k0 + (j' + 1) := by omega
      rw [harith]

/-- C3: a command classified `long_running` whose configured markers
never appear in the trailing buffer never exits on quiet output; the
dispatch loop of `_send_cmd_and_capture` runs until the `max_s` ceiling,
exiting at the first read event whose timestamp reaches `start + max_s`,
with the hard-ceiling exit reason. -/
theorem c3_long_running_runs_to_max (mode : Nat) (cmdChar : String)
    (quietS maxS start : ℚ) (events : List (ℚ × String)) (j : Nat)
    (tj : ℚ) (dj : String)
    (hlr : longRunning mode cmdChar = true)
    (hev : events.get? j = some (tj, dj))
    (hmax : maxS ≤ tj - start)
    (hfirst : ∀ e ∈ events.take j, e.1 - start < maxS)
    (hnomark : ∀ b ∈ bufStates (stopMarkers mode cmdChar) events [],
      anyMarkerIn (stopMarkers mode cmdChar) b = false) :
    sendCmdCapture mode cmdChar quietS maxS start events
      = some ⟨j, tj, .maxElapsed⟩ := by
  rw [sendCmdCapture, hlr]
  have := captureLoop_long_running_to_max (stopMarkers mode cmdChar) quietS maxS start
    events [] start 0 j tj dj hev hmax hfirst hnomark
  simpa using this

/-- Witness for C3: the erase command `"e"` in mode 1 (long-running, markers
`Erase OK`/`Erase FAIL`.  The stream delivers unrelated output at time 1 and
silence at time 10; with `quiet_s = 1` and `max_s = 6` the loop ignores the
nine seconds of silence and exits at the first event past the ceiling, for
the ceiling reason. -/
theorem c3_long_running_runs_to_max_witness :
    sendCmdCapture 1 "e" 1 6 0 [(1, "x"), (10, "")]
      = some ⟨1, 10, .maxElapsed⟩ :=
  c3_long_running_runs_to_max 1 "e" 1 6 0 [(1, "x"), (10, "")] 1 10 ""
    (by decide) rfl (by norm_num)
    (fun e he => by
      have h : e = (1, "x") := by simpa using he
      rw [h]
      norm_num)
    (by decide)

end ESP32Runner
